import Mathlib

/-!
# Verification of the grs-tc-generator data model and lifecycle helpers

Shallow embedding of the `spacelab-ufsc/grs-tc-generator` repository:
the four entity types (`Operator`, `Satellite`, `Telecommand`,
`ExecutionLog`) declared under `app/models/`, the check constraints and
foreign-key delete policies of the schema, the status-lifecycle helper
`Telecommand.update_status`, and the session factory
`DatabaseManager`.  Timestamps are modelled as natural numbers; JSON
payloads (`parameters`, `details`, `metadata`) as opaque optional
strings.  Rows of each table are records; the database is a record of
row lists; write operations return `Except DbError DbState`, an error
standing for the integrity violation the storage engine raises while
the transaction rolls back.
-/

namespace TcGen

/-- A telecommand row / entity, from `app/models/telecommand.py`.
Columns in declaration order; `parameters` and `metadata_` (column
`metadata`) are opaque JSON payloads. -/
structure Telecommand where
  id : Nat
  satellite_id : Nat
  operator_id : Nat
  command_type : String
  parameters : Option String := none
  status : String := "pending"
  status_message : Option String := none
  created_at : Option Nat := none
  sent_at : Option Nat := none
  confirmed_at : Option Nat := none
  priority : Int := 5
  metadata_ : Option String := none
  deriving Repr, DecidableEq

/-- An operator row / entity, from `app/models/operator.py`. -/
structure Operator where
  id : Nat
  username : String
  email : String
  full_name : String
  password_hash : String
  role : String := "operator"
  created_at : Option Nat := none
  last_login : Option Nat := none
  status : String := "active"
  deriving Repr, DecidableEq

/-- A satellite row / entity, from `app/models/satellite.py`. -/
structure Satellite where
  id : Nat
  name : String
  code : String
  description : Option String := none
  created_at : Option Nat := none
  updated_at : Option Nat := none
  status : String := "active"
  deriving Repr, DecidableEq

/-- An execution-log row / entity, from `app/models/execution_log.py`.
`created_at` is `none` until the column default is applied at flush. -/
structure ExecutionLog where
  id : Nat
  status : String
  message : Option String := none
  details : Option String := none
  created_at : Option Nat := none
  telecommand_id : Nat
  created_by : Option Nat := none
  deriving Repr, DecidableEq

/-- The relational state: one list of rows per table. -/
structure DbState where
  operators : List Operator := []
  satellites : List Satellite := []
  telecommands : List Telecommand := []
  execution_logs : List ExecutionLog := []
  deriving Repr, DecidableEq

/-- Python's `str.lower()` as used on status strings: character-wise
lower-casing (structural, so the kernel can evaluate it). -/
def pyLower (s : String) : String := String.mk (s.data.map Char.toLower)

/-! ## `Telecommand.update_status` (telecommand.py, lines 86-105)

```python
def update_status(self, new_status, message=None):
    self.status = new_status.lower()
    self.status_message = message
    now = datetime.now(timezone.utc)
    if new_status.lower() == 'sent':
        self.sent_at = now
    elif new_status.lower() == 'confirmed':
        self.confirmed_at = now
    return self
```
The current clock `datetime.now(timezone.utc)` is passed explicitly as
`now`. -/
def Telecommand.update_status (tc : Telecommand) (new_status : String)
    (message : Option String := none) (now : Nat := 0) : Telecommand :=
  let tc := { tc with status := pyLower new_status, status_message := message }
  if pyLower new_status = "sent" then
    { tc with sent_at := some now }
  else if pyLower new_status = "confirmed" then
    { tc with confirmed_at := some now }
  else
    tc

end TcGen

namespace TcGen

/-- C2: `update_status` is total (no validation of `new_status` against the
five allowed values), stores the lower-cased status and the message, stamps
`sent_at` with the current time exactly when the lower-cased status is
`"sent"`, stamps `confirmed_at` exactly when it is `"confirmed"`, stamps
nothing otherwise, and the returned entity agrees with the input on every
other field. -/
theorem update_status_spec (tc : Telecommand) (ns : String)
    (msg : Option String) (now : Nat) :
    (tc.update_status ns msg now).status = pyLower ns ∧
    (tc.update_status ns msg now).status_message = msg ∧
    (tc.update_status ns msg now).sent_at
      = (if pyLower ns = "sent" then some now else tc.sent_at) ∧
    (tc.update_status ns msg now).confirmed_at
      = (if pyLower ns = "confirmed" then some now else tc.confirmed_at) ∧
    (tc.update_status ns msg now).id = tc.id ∧
    (tc.update_status ns msg now).satellite_id = tc.satellite_id ∧
    (tc.update_status ns msg now).operator_id = tc.operator_id ∧
    (tc.update_status ns msg now).command_type = tc.command_type ∧
    (tc.update_status ns msg now).parameters = tc.parameters ∧
    (tc.update_status ns msg now).created_at = tc.created_at ∧
    (tc.update_status ns msg now).priority = tc.priority ∧
    (tc.update_status ns msg now).metadata_ = tc.metadata_ := by
  have hsc : ("sent" : String) ≠ "confirmed" := by decide
  simp only [Telecommand.update_status]
  split_ifs with h1 h2 <;> simp_all

/-- C10: calling `update_status` with the message argument omitted (Python
default `None`) always overwrites any previously stored `status_message`
with `None`. -/
theorem update_status_message_overwrite (tc : Telecommand) (ns : String)
    (now : Nat) :
    (tc.update_status ns none now).status_message = none := by
  simp only [Telecommand.update_status]
  split_ifs <;> rfl

/-- C4: `update_status("sent", x)` at time `now1` sets `sent_at` to a
non-null timestamp and leaves `confirmed_at` untouched; a subsequent
`update_status("confirmed", y)` at time `now2 ≥ now1` sets `confirmed_at`
to `now2 ≥ now1 = sent_at`. -/
theorem update_status_sent_then_confirmed (tc : Telecommand)
    (x y : String) (now1 now2 : Nat) (h : now1 ≤ now2) :
    (tc.update_status "sent" (some x) now1).sent_at = some now1 ∧
    ((tc.update_status "sent" (some x) now1).sent_at).isSome = true ∧
    (tc.update_status "sent" (some x) now1).confirmed_at = tc.confirmed_at ∧
    ((tc.update_status "sent" (some x) now1).update_status
        "confirmed" (some y) now2).confirmed_at = some now2 ∧
    ((tc.update_status "sent" (some x) now1).update_status
        "confirmed" (some y) now2).sent_at = some now1 ∧
    now1 ≤ now2 := by
  have h1 : pyLower "sent" = "sent" := by decide
  have h2 : pyLower "confirmed" = "confirmed" := by decide
  have h3 : ("confirmed" : String) ≠ "sent" := by decide
  refine ⟨?_, ?_, ?_, ?_, ?_, h⟩ <;>
    simp [Telecommand.update_status, h1, h2, h3]

/-- A concrete telecommand used by witnesses. -/
def tcPing : Telecommand :=
  { id := 10, satellite_id := 1, operator_id := 2, command_type := "PING" }

/-! ## Schema constraints and write operations

Check constraints from `__table_args__` and the foreign keys declared in
the models; an integrity violation carries the violated constraint's
name, and a failed statement rolls the transaction back (`runTx`). -/

/-- An integrity violation raised by the storage engine. -/
inductive DbError
  | integrity (constraint : String)
  deriving Repr, DecidableEq

/-- Check constraint `valid_status` (telecommand.py, `__table_args__`):
`status IN ('pending', 'queued', 'sent', 'confirmed', 'failed')`. -/
def validTelecommandStatus (s : String) : Bool :=
  ["pending", "queued", "sent", "confirmed", "failed"].contains s

/-- Check constraint `valid_priority` (telecommand.py, `__table_args__`):
`priority BETWEEN 1 AND 10`. -/
def validPriority (p : Int) : Bool := 1 ≤ p && p ≤ 10

/-- Does a satellite row with the given id exist? -/
def DbState.satelliteExists (s : DbState) (sid : Nat) : Bool :=
  s.satellites.any (fun sat => sat.id == sid)

/-- Does an operator row with the given id exist? -/
def DbState.operatorExists (s : DbState) (oid : Nat) : Bool :=
  s.operators.any (fun op => op.id == oid)

/-- Does a telecommand row with the given id exist? -/
def DbState.telecommandExists (s : DbState) (tid : Nat) : Bool :=
  s.telecommands.any (fun tc => tc.id == tid)

/-- Validation the storage engine applies to a telecommand row on
insert/update: the two check constraints, then the two foreign keys.
Returns the name of the violated constraint, if any. -/
def telecommandRowOk (s : DbState) (tc : Telecommand) : Option String :=
  if ¬ validTelecommandStatus tc.status then some "valid_status"
  else if ¬ validPriority tc.priority then some "valid_priority"
  else if ¬ s.satelliteExists tc.satellite_id then some "telecommands_satellite_id_fkey"
  else if ¬ s.operatorExists tc.operator_id then some "telecommands_operator_id_fkey"
  else none

/-- INSERT of a telecommand row: constraint-checked, appended on success. -/
def insertTelecommand (s : DbState) (tc : Telecommand) : Except DbError DbState :=
  match telecommandRowOk s tc with
  | some c => .error (.integrity c)
  | none => .ok { s with telecommands := s.telecommands ++ [tc] }

/-- UPDATE of a telecommand's `priority`: the updated row must satisfy
the constraints, otherwise the statement fails. -/
def updateTelecommandPriority (s : DbState) (tid : Nat) (p : Int) :
    Except DbError DbState :=
  match s.telecommands.find? (fun tc => tc.id == tid) with
  | none => .ok s
  | some tc =>
    match telecommandRowOk s { tc with priority := p } with
    | some c => .error (.integrity c)
    | none =>
      let updated := s.telecommands.map (fun r =>
        if r.id == tid then { r with priority := p } else r)
      .ok { s with telecommands := updated }

/-- The enclosing transaction: on an integrity violation it is rolled
back, leaving the prior state untouched. -/
def runTx (s : DbState) (r : Except DbError DbState) : DbState :=
  match r with
  | .ok s' => s'
  | .error _ => s

/-- The integrity violation a statement raised, if any. -/
def txError (r : Except DbError DbState) : Option DbError :=
  match r with
  | .ok _ => none
  | .error e => some e

/-- Every foreign key of the state holds: each telecommand references an
existing satellite and operator, each execution log an existing
telecommand and (when set) an existing operator. -/
def DbState.fkOk (s : DbState) : Bool :=
  s.telecommands.all (fun tc =>
    s.satelliteExists tc.satellite_id && s.operatorExists tc.operator_id) &&
  s.execution_logs.all (fun lg =>
    s.telecommandExists lg.telecommand_id &&
    (match lg.created_by with
     | none => true
     | some o => s.operatorExists o))

/-! ## Delete operations and their referential effects -/

/-- Deleting a telecommand row: the DB-level
`ForeignKey('telecommands.id', ondelete='CASCADE')` on
`ExecutionLog.telecommand_id` removes its execution logs with it. -/
def deleteTelecommandDb (s : DbState) (tid : Nat) : DbState :=
  { s with
    telecommands := s.telecommands.filter (fun tc => tc.id != tid),
    execution_logs := s.execution_logs.filter (fun lg => lg.telecommand_id != tid) }

/-- Deleting a satellite. `Satellite.telecommands` is declared with
`cascade="all, delete-orphan"` and `passive_deletes=True`, matching the
`ondelete='CASCADE'` on `Telecommand.satellite_id`: every owned
telecommand row is deleted (each taking its execution logs with it via
`deleteTelecommandDb`), then the satellite row itself. -/
def deleteSatellite (s : DbState) (sid : Nat) : DbState :=
  let owned := (s.telecommands.filter (fun tc => tc.satellite_id == sid)).map (fun tc => tc.id)
  let s1 := owned.foldl deleteTelecommandDb s
  { s1 with satellites := s1.satellites.filter (fun sat => sat.id != sid) }

/-- Deleting an operator through the ORM session (`session.delete` +
flush), the unit of work the declared relationship cascades produce:

* `Operator.telecommands` is declared `cascade="all, delete-orphan"`
  with NO `passive_deletes` (operator.py, lines 42-46), so the session
  itself deletes every owned telecommand first — the DB-level
  `ondelete='SET DEFAULT'` on `Telecommand.operator_id` never fires;
  each deleted telecommand's execution logs go with it
  (`Telecommand.execution_logs` cascades, backed by `ondelete='CASCADE'`);
* `Operator.execution_logs` has the default cascade, so the session
  nulls out `created_by` on the remaining logs of the deleted operator
  (matching `ondelete='SET NULL'`);
* then the operator row is deleted. The emitted statements must leave
  every foreign key satisfied, otherwise the flush fails. -/
def deleteOperatorOrm (s : DbState) (oid : Nat) : Except DbError DbState :=
  let ownedIds := (s.telecommands.filter (fun tc => tc.operator_id == oid)).map (fun tc => tc.id)
  let s' : DbState :=
    { s with
      telecommands := s.telecommands.filter (fun tc => tc.operator_id != oid),
      execution_logs :=
        (s.execution_logs.filter (fun lg => !(ownedIds.contains lg.telecommand_id))).map
          (fun lg => if lg.created_by == some oid then { lg with created_by := none } else lg),
      operators := s.operators.filter (fun op => op.id != oid) }
  if s'.fkOk then .ok s' else .error (.integrity "foreign_key")

/-- Deleting an operator row at the storage level (a raw
`DELETE FROM operators WHERE id = oid`), applying the declared
referential actions: `Telecommand.operator_id` has
`ondelete='SET DEFAULT'` with `server_default='1'` (telecommand.py,
lines 27-34), so owned telecommands are reassigned to operator 1;
`ExecutionLog.created_by` has `ondelete='SET NULL'`. The resulting
state must satisfy every foreign key — in particular a reassigned
telecommand requires the operator row with id 1 to exist — otherwise
the delete itself fails with an integrity violation. -/
def deleteOperatorDb (s : DbState) (oid : Nat) : Except DbError DbState :=
  let s' : DbState :=
    { s with
      operators := s.operators.filter (fun op => op.id != oid),
      telecommands := s.telecommands.map (fun tc =>
        if tc.operator_id == oid then { tc with operator_id := 1 } else tc),
      execution_logs := s.execution_logs.map (fun lg =>
        if lg.created_by == some oid then { lg with created_by := none } else lg) }
  if s'.fkOk then .ok s' else .error (.integrity "foreign_key")

/-! ## `DatabaseManager` (app/database/factories/database_manager.py) -/

/-- The selected backend configuration. -/
inductive DbConfig
  | sqlite (db_url : String)
  | postgres (db_url : Option String)
  deriving Repr, DecidableEq

/-- A session produced by the active configuration. -/
structure Session where
  config : DbConfig
  deriving Repr, DecidableEq

/-- Method `DatabaseManager.init_db` (lines 23-36): selects the backend from the
`db_type` discriminator; a `db_url` kwarg overrides the environment
variable, with a fixed fallback for sqlite and a default of plain
PostgreSQL for any unrecognized discriminator. -/
def initDb (db_type : String) (db_url_kwarg : Option String)
    (env : String → Option String) : DbConfig :=
  if db_type = "sqlite" then
    .sqlite (db_url_kwarg.getD ((env "SQLITE_DATABASE_URL").getD "sqlite:///app.db"))
  else if db_type = "postgresql_test" then
    .postgres (db_url_kwarg <|> env "PG_DATABASE_URL_TEST")
  else
    .postgres (db_url_kwarg <|> env "PG_DATABASE_URL")

/-- Method `DatabaseManager.get_session` (lines 38-43): raises
`RuntimeError("Database not initialized. Call init_db() first.")` when
no configuration has been selected, otherwise returns a session of the
active configuration. -/
def getSession (cfg : Option DbConfig) : Except String Session :=
  match cfg with
  | none => .error "Database not initialized. Call init_db() first."
  | some c => .ok { config := c }

/-- The manager's `_db_config` before any `init_db` call. -/
def managerInitialConfig : Option DbConfig := none

/-! ## `ExecutionLog.create_log` and the `created_at` default -/

/-- The single `datetime.now(timezone.utc)` value captured when the
`ExecutionLog` class body is evaluated (execution_log.py, lines 22-25):
`default=datetime.now(timezone.utc)` passes a datetime VALUE, not a
callable, so the clock is read once at class-definition time. -/
def executionLogCreatedAtDefault (class_def_time : Nat) : Nat := class_def_time

/-- Method `ExecutionLog.create_log` (lines 59-86): builds the entity from its
arguments; `created_at` is left unset until flush. -/
def ExecutionLog.create_log (telecommand_id : Nat) (status : String)
    (message : Option String := none) (details : Option String := none)
    (created_by : Option Nat := none) : ExecutionLog :=
  { id := 0, status := status, message := message, details := details,
    telecommand_id := telecommand_id, created_by := created_by }

/-- Applying the scalar column default at flush time: a missing
`created_at` is filled with the class-definition-time constant.  The
flush-time clock `flush_time` is ignored, precisely because the Python
default is a datetime value, not a callable. -/
def flushExecutionLog (class_def_time : Nat) (_flush_time : Nat)
    (lg : ExecutionLog) : ExecutionLog :=
  let filled := lg.created_at.getD (executionLogCreatedAtDefault class_def_time)
  { lg with created_at := some filled }

/-! ## Concrete rows and states used by witnesses and counterexamples -/

/-- The fallback admin row (id 1). -/
def opAdmin : Operator :=
  { id := 1, username := "admin", email := "admin@tcgenerator.com",
    full_name := "Admin", password_hash := "x", role := "admin" }

/-- A second operator (id 2) owning a telecommand. -/
def opBob : Operator :=
  { id := 2, username := "bob", email := "bob@example.com",
    full_name := "Bob Op", password_hash := "y" }

/-- A satellite row. -/
def satFloripa : Satellite :=
  { id := 1, name := "FloripaSat-1", code := "SAT-001" }

/-- An execution log for telecommand 10, created by operator 2. -/
def logStart : ExecutionLog :=
  { id := 5, status := "started", telecommand_id := 10, created_by := some 2 }

/-- State with the fallback admin present: operators 1 and 2, one
satellite, telecommand 10 owned by operator 2, one log on it. -/
def exDb : DbState :=
  { operators := [opAdmin, opBob], satellites := [satFloripa],
    telecommands := [tcPing], execution_logs := [logStart] }

/-- State WITHOUT the fallback admin: only operator 2, who owns
telecommand 10. -/
def exDbNoAdmin : DbState :=
  { operators := [opBob], satellites := [satFloripa],
    telecommands := [tcPing], execution_logs := [] }

/-- C1 evaluated on the code: deleting operator 2, who owns telecommand
10, through the ORM session DELETES telecommand 10 (and its log) instead
of keeping it with `operator_id = 1` — the `cascade="all, delete-orphan"`
on `Operator.telecommands` fires before the DB-level
`ondelete='SET DEFAULT'` ever could.  The last conjunct shows the
storage-level referential action alone (a raw DELETE) would have
produced the behaviour the claim describes. -/
theorem delete_operator_orm_cascades_owned_telecommands :
    (deleteOperatorOrm exDb 2).isOk = true ∧
    runTx exDb (deleteOperatorOrm exDb 2)
      = { operators := [opAdmin], satellites := [satFloripa],
          telecommands := [], execution_logs := [] } ∧
    (runTx exDb (deleteOperatorOrm exDb 2)).telecommands.any
      (fun tc => tc.id == 10) = false ∧
    (deleteOperatorDb exDb 2).isOk = true ∧
    runTx exDb (deleteOperatorDb exDb 2)
      = { operators := [opAdmin], satellites := [satFloripa],
          telecommands := [{ tcPing with operator_id := 1 }],
          execution_logs := [{ logStart with created_by := none }] } := by
  decide

/-- C3 evaluated on the code: with no operator row of id 1 present,
deleting operator 2 (owner of telecommand 10) through the ORM session
SUCCEEDS — the owned telecommand is deleted first, so no referential
action runs and no integrity violation is raised.  Only a raw
storage-level delete (last conjunct) fails as the claim describes. -/
theorem delete_operator_without_admin_succeeds :
    (deleteOperatorOrm exDbNoAdmin 2).isOk = true ∧
    runTx exDbNoAdmin (deleteOperatorOrm exDbNoAdmin 2)
      = { operators := [], satellites := [satFloripa],
          telecommands := [], execution_logs := [] } ∧
    txError (deleteOperatorDb exDbNoAdmin 2)
      = some (.integrity "foreign_key") := by
  decide

/-- C7: requesting a session before any backend configuration has been
selected fails with the explicit "not initialized" error; after
`init_db` with ANY discriminator (the final branch defaults to
PostgreSQL), `get_session` returns a session. -/
theorem database_manager_session_init :
    getSession managerInitialConfig
      = .error "Database not initialized. Call init_db() first." ∧
    ∀ db_type db_url env,
      (getSession (some (initDb db_type db_url env))).isOk = true :=
  ⟨rfl, fun _ _ _ => rfl⟩

/-- C9: any two execution logs built without an explicit `created_at`
(e.g. via `create_log`) receive the same `created_at` — the single
class-definition-time clock reading — independent of their flush times
and payloads. -/
theorem execution_log_created_at_class_constant
    (t now1 now2 tid1 tid2 : Nat) (st1 st2 : String)
    (m1 m2 d1 d2 : Option String) (cb1 cb2 : Option Nat) :
    (flushExecutionLog t now1 (ExecutionLog.create_log tid1 st1 m1 d1 cb1)).created_at
      = (flushExecutionLog t now2 (ExecutionLog.create_log tid2 st2 m2 d2 cb2)).created_at ∧
    (flushExecutionLog t now1 (ExecutionLog.create_log tid1 st1 m1 d1 cb1)).created_at
      = some t :=
  ⟨rfl, rfl⟩


/-- With the status constraint and both foreign keys satisfied, row
validation comes down to the `valid_priority` check. -/
theorem telecommandRowOk_priority (s : DbState) (tc : Telecommand)
    (hst : validTelecommandStatus tc.status = true)
    (hsat : s.satelliteExists tc.satellite_id = true)
    (hop : s.operatorExists tc.operator_id = true) :
    telecommandRowOk s tc
      = if 1 ≤ tc.priority ∧ tc.priority ≤ 10 then none
        else some "valid_priority" := by
  by_cases hp : 1 ≤ tc.priority ∧ tc.priority ≤ 10 <;>
    simp [telecommandRowOk, validPriority, hst, hsat, hop, hp]

/-- C5: with the other constraints satisfied, a telecommand's priority
persists (the insert/update statement succeeds and the row is stored)
if and only if it lies within [1,10]; inserting with priority 0 or 11,
or updating an existing row's priority to 0 or 11, fails with the
`valid_priority` integrity violation and the rolled-back transaction
leaves the prior state untouched. -/
theorem telecommand_priority_check (s : DbState) (tc : Telecommand)
    (tid : Nat) (p : Int)
    (hst : validTelecommandStatus tc.status = true)
    (hsat : s.satelliteExists tc.satellite_id = true)
    (hop : s.operatorExists tc.operator_id = true) :
    ((insertTelecommand s tc).isOk = true ↔ 1 ≤ tc.priority ∧ tc.priority ≤ 10) ∧
    ((tc.priority = 0 ∨ tc.priority = 11) →
      txError (insertTelecommand s tc) = some (.integrity "valid_priority") ∧
      runTx s (insertTelecommand s tc) = s) ∧
    (1 ≤ tc.priority → tc.priority ≤ 10 →
      runTx s (insertTelecommand s tc)
        = { s with telecommands := s.telecommands ++ [tc] }) ∧
    (s.telecommands.find? (fun r => r.id == tid) = some tc →
      ((updateTelecommandPriority s tid p).isOk = true ↔ 1 ≤ p ∧ p ≤ 10) ∧
      ((p = 0 ∨ p = 11) →
        txError (updateTelecommandPriority s tid p)
          = some (.integrity "valid_priority") ∧
        runTx s (updateTelecommandPriority s tid p) = s)) := by
  have hrow0 := telecommandRowOk_priority s tc hst hsat hop
  have hrowp := telecommandRowOk_priority s { tc with priority := p } hst hsat hop
  have hins : insertTelecommand s tc
      = if 1 ≤ tc.priority ∧ tc.priority ≤ 10
        then .ok { s with telecommands := s.telecommands ++ [tc] }
        else .error (.integrity "valid_priority") := by
    rw [insertTelecommand, hrow0]
    by_cases hp : 1 ≤ tc.priority ∧ tc.priority ≤ 10 <;> simp [hp]
  refine ⟨?_, ?_, ?_, ?_⟩
  · rw [hins]
    by_cases hp : 1 ≤ tc.priority ∧ tc.priority ≤ 10 <;>
      simp [hp, Except.isOk, Except.toBool]
  · intro hbad
    have hp : ¬ (1 ≤ tc.priority ∧ tc.priority ≤ 10) := by
      rcases hbad with h | h <;> rw [h] <;> omega
    rw [hins, if_neg hp]
    simp [txError, runTx]
  · intro h1 h2
    rw [hins, if_pos ⟨h1, h2⟩]
    simp [runTx]
  · intro hfind
    have hupd : updateTelecommandPriority s tid p
        = if 1 ≤ p ∧ p ≤ 10
          then .ok { s with telecommands := s.telecommands.map (fun r =>
                 if r.id == tid then { r with priority := p } else r) }
          else .error (.integrity "valid_priority") := by
      rw [updateTelecommandPriority]
      simp only [hfind, hrowp]
      by_cases hp : 1 ≤ p ∧ p ≤ 10 <;> simp [hp]
    constructor
    · rw [hupd]
      by_cases hp : 1 ≤ p ∧ p ≤ 10 <;>
        simp [hp, Except.isOk, Except.toBool]
    · intro hbad
      have hp : ¬ (1 ≤ p ∧ p ≤ 10) := by
        rcases hbad with h | h <;> rw [h] <;> omega
      rw [hupd, if_neg hp]
      simp [txError, runTx]

/-- Witness for C5 on the concrete state `exDb`: telecommand 10 has
priority 5, and updating its priority to 0 must fail and roll back. -/
theorem telecommand_priority_check_witness :
    ((insertTelecommand exDb tcPing).isOk = true
        ↔ 1 ≤ tcPing.priority ∧ tcPing.priority ≤ 10) ∧
    ((tcPing.priority = 0 ∨ tcPing.priority = 11) →
      txError (insertTelecommand exDb tcPing) = some (.integrity "valid_priority") ∧
      runTx exDb (insertTelecommand exDb tcPing) = exDb) ∧
    (1 ≤ tcPing.priority → tcPing.priority ≤ 10 →
      runTx exDb (insertTelecommand exDb tcPing)
        = { exDb with telecommands := exDb.telecommands ++ [tcPing] }) ∧
    (exDb.telecommands.find? (fun r => r.id == 10) = some tcPing →
      ((updateTelecommandPriority exDb 10 0).isOk = true ↔ 1 ≤ (0 : Int) ∧ (0 : Int) ≤ 10) ∧
      (((0 : Int) = 0 ∨ (0 : Int) = 11) →
        txError (updateTelecommandPriority exDb 10 0)
          = some (.integrity "valid_priority") ∧
        runTx exDb (updateTelecommandPriority exDb 10 0) = exDb)) :=
  telecommand_priority_check exDb tcPing 10 0 (by decide) (by decide) (by decide)

/-- Witness for C4 at a concrete telecommand and clock values. -/
theorem update_status_sent_then_confirmed_witness :
    (tcPing.update_status "sent" (some "x") 5).sent_at = some 5 ∧
    ((tcPing.update_status "sent" (some "x") 5).sent_at).isSome = true ∧
    (tcPing.update_status "sent" (some "x") 5).confirmed_at
      = tcPing.confirmed_at ∧
    ((tcPing.update_status "sent" (some "x") 5).update_status
        "confirmed" (some "y") 7).confirmed_at = some 7 ∧
    ((tcPing.update_status "sent" (some "x") 5).update_status
        "confirmed" (some "y") 7).sent_at = some 5 ∧
    (5 : Nat) ≤ 7 :=
  update_status_sent_then_confirmed tcPing "x" "y" 5 7 (by decide)

end TcGen

namespace TcGen

/-- Projections of `deleteTelecommandDb`. -/
theorem deleteTelecommandDb_telecommands (s : DbState) (tid : Nat) :
    (deleteTelecommandDb s tid).telecommands
      = s.telecommands.filter (fun tc => tc.id != tid) := rfl

theorem deleteTelecommandDb_logs (s : DbState) (tid : Nat) :
    (deleteTelecommandDb s tid).execution_logs
      = s.execution_logs.filter (fun lg => lg.telecommand_id != tid) := rfl

theorem deleteTelecommandDb_satellites (s : DbState) (tid : Nat) :
    (deleteTelecommandDb s tid).satellites = s.satellites := rfl

theorem deleteTelecommandDb_operators (s : DbState) (tid : Nat) :
    (deleteTelecommandDb s tid).operators = s.operators := rfl

/-- Effect of cascading a list of telecommand deletions. -/
theorem foldl_deleteTelecommandDb (ids : List Nat) (s : DbState) :
    (ids.foldl deleteTelecommandDb s).telecommands
      = s.telecommands.filter (fun tc => !(ids.contains tc.id)) ∧
    (ids.foldl deleteTelecommandDb s).execution_logs
      = s.execution_logs.filter (fun lg => !(ids.contains lg.telecommand_id)) ∧
    (ids.foldl deleteTelecommandDb s).satellites = s.satellites ∧
    (ids.foldl deleteTelecommandDb s).operators = s.operators := by
  induction ids generalizing s with
  | nil => exact ⟨by simp, by simp, rfl, rfl⟩
  | cons i is ih =>
    simp only [List.foldl_cons]
    obtain ⟨h1, h2, h3, h4⟩ := ih (deleteTelecommandDb s i)
    simp only [h1, h2, h3, h4, deleteTelecommandDb_telecommands,
      deleteTelecommandDb_logs, deleteTelecommandDb_satellites,
      deleteTelecommandDb_operators, List.filter_filter]
    refine ⟨?_, ?_, by trivial, by trivial⟩
    · apply List.filter_congr
      intro a _
      by_cases hx : a.id = i <;> by_cases hm : a.id ∈ is <;>
        simp [hx, hm, List.contains_cons]
    · apply List.filter_congr
      intro a _
      by_cases hx : a.telecommand_id = i <;> by_cases hm : a.telecommand_id ∈ is <;>
        simp [hx, hm, List.contains_cons]


/-- Membership in the list of ids of the telecommands owned by satellite
`sid`, as the storage engine resolves the cascade. -/
theorem contains_ownedIds (sid : Nat) (l : List Telecommand) (x : Nat) :
    ((l.filter (fun tc => tc.satellite_id == sid)).map (fun tc => tc.id)).contains x
      = l.any (fun tc => (tc.satellite_id == sid) && (tc.id == x)) := by
  rw [Bool.eq_iff_iff]
  simp [List.any_eq_true]
  tauto

/-- C6: deleting a satellite removes exactly its own telecommands (all N
of them, as the length equation states) and transitively every execution
log referencing one of them, touching no other table and no other rows;
telecommand ids are assumed unique (primary key). -/
theorem delete_satellite_cascades (s : DbState) (sid : Nat)
    (hids : (s.telecommands.map (fun tc => tc.id)).Nodup) :
    (deleteSatellite s sid).telecommands
      = s.telecommands.filter (fun tc => !(tc.satellite_id == sid)) ∧
    (deleteSatellite s sid).execution_logs
      = s.execution_logs.filter (fun lg =>
          !(s.telecommands.any (fun tc =>
              (tc.satellite_id == sid) && (tc.id == lg.telecommand_id)))) ∧
    (deleteSatellite s sid).satellites
      = s.satellites.filter (fun sat => sat.id != sid) ∧
    (deleteSatellite s sid).operators = s.operators ∧
    (deleteSatellite s sid).telecommands.length
      + (s.telecommands.filter (fun tc => tc.satellite_id == sid)).length
      = s.telecommands.length := by
  obtain ⟨h1, h2, h3, h4⟩ := foldl_deleteTelecommandDb
    ((s.telecommands.filter (fun tc => tc.satellite_id == sid)).map (fun tc => tc.id)) s
  have e1 : (deleteSatellite s sid).telecommands
      = (((s.telecommands.filter (fun tc => tc.satellite_id == sid)).map
          (fun tc => tc.id)).foldl deleteTelecommandDb s).telecommands := rfl
  have e2 : (deleteSatellite s sid).execution_logs
      = (((s.telecommands.filter (fun tc => tc.satellite_id == sid)).map
          (fun tc => tc.id)).foldl deleteTelecommandDb s).execution_logs := rfl
  have e3 : (deleteSatellite s sid).satellites
      = ((((s.telecommands.filter (fun tc => tc.satellite_id == sid)).map
          (fun tc => tc.id)).foldl deleteTelecommandDb s).satellites).filter
            (fun sat => sat.id != sid) := rfl
  have e4 : (deleteSatellite s sid).operators
      = (((s.telecommands.filter (fun tc => tc.satellite_id == sid)).map
          (fun tc => tc.id)).foldl deleteTelecommandDb s).operators := rfl
  have hA : ∀ tc ∈ s.telecommands,
      ((s.telecommands.filter (fun tc => tc.satellite_id == sid)).map
        (fun tc => tc.id)).contains tc.id = (tc.satellite_id == sid) := by
    intro tc htc
    rw [contains_ownedIds]
    by_cases hp : tc.satellite_id = sid
    · have hany : s.telecommands.any (fun a =>
          (a.satellite_id == sid) && (a.id == tc.id)) = true :=
        List.any_eq_true.mpr ⟨tc, htc, by simp [hp]⟩
      simp [hany, hp]
    · have hfalse : s.telecommands.any (fun a =>
          (a.satellite_id == sid) && (a.id == tc.id)) = false := by
        rw [List.any_eq_false]
        intro a ha hcontra
        rw [Bool.and_eq_true, beq_iff_eq, beq_iff_eq] at hcontra
        obtain ⟨h5, h6⟩ := hcontra
        have hae : a = tc := List.inj_on_of_nodup_map hids ha htc h6
        exact hp (hae ▸ h5)
      simp [hfalse, hp]
  have htcs : (deleteSatellite s sid).telecommands
      = s.telecommands.filter (fun tc => !(tc.satellite_id == sid)) := by
    rw [e1, h1]
    apply List.filter_congr
    intro a ha
    rw [hA a ha]
  have hlen : ∀ (l : List Telecommand),
      (l.filter (fun tc => !(tc.satellite_id == sid))).length
        + (l.filter (fun tc => tc.satellite_id == sid)).length = l.length := by
    intro l
    induction l with
    | nil => rfl
    | cons t ts ih =>
      by_cases hp : t.satellite_id = sid <;>
        · simp [List.filter_cons, hp]
          omega
  refine ⟨htcs, ?_, ?_, ?_, ?_⟩
  · rw [e2, h2]
    apply List.filter_congr
    intro a _
    rw [contains_ownedIds]
  · rw [e3, h3]
  · rw [e4, h4]
  · rw [htcs]
    exact hlen s.telecommands


/-- Witness for C6 on the concrete state `exDb`: deleting satellite 1
removes telecommand 10 and its log. -/
theorem delete_satellite_cascades_witness :
    (deleteSatellite exDb 1).telecommands
      = exDb.telecommands.filter (fun tc => !(tc.satellite_id == 1)) ∧
    (deleteSatellite exDb 1).execution_logs
      = exDb.execution_logs.filter (fun lg =>
          !(exDb.telecommands.any (fun tc =>
              (tc.satellite_id == 1) && (tc.id == lg.telecommand_id)))) ∧
    (deleteSatellite exDb 1).satellites
      = exDb.satellites.filter (fun sat => sat.id != 1) ∧
    (deleteSatellite exDb 1).operators = exDb.operators ∧
    (deleteSatellite exDb 1).telecommands.length
      + (exDb.telecommands.filter (fun tc => tc.satellite_id == 1)).length
      = exDb.telecommands.length :=
  delete_satellite_cascades exDb 1 (by decide)

end TcGen

namespace TcGen

/-- Modelled from the spec: `werkzeug.security.generate_password_hash`,
an external library (spec §1 places password hashing primitives out of
scope).  All the spec relies on is that it is a deterministic, salted
one-way transformation that `check_password_hash` can verify; it is
modelled as a method-tagged injective encoding — the one-way property
itself is not expressible in a shallow embedding and no claim depends
on it. -/
def generate_password_hash (password : String) : String :=
  "scrypt$" ++ password

/-- Modelled from the spec: `werkzeug.security.check_password_hash` —
true exactly when the stored hash is the hash of the offered password. -/
def check_password_hash (pwhash : String) (password : String) : Bool :=
  pwhash == generate_password_hash password

/-- The `@password.setter` (operator.py, lines 67-69): stores only the
hash of the supplied plaintext. -/
def Operator.setPassword (op : Operator) (password : String) : Operator :=
  { op with password_hash := generate_password_hash password }

/-- The `@property password` getter (operator.py, lines 63-65): always
raises `AttributeError('password is not a readable attribute')`. -/
def Operator.passwordAttr (_op : Operator) : Except String String :=
  .error "password is not a readable attribute"

/-- Method `Operator.verify_password` (operator.py, lines 71-72). -/
def Operator.verify_password (op : Operator) (password : String) : Bool :=
  check_password_hash op.password_hash password

/-- A Python dict value as produced by the `to_dict` serializers. -/
inductive PyValue
  | int (n : Nat)
  | str (s : String)
  | null
  deriving Repr, DecidableEq

/-- Abstract rendering of `datetime.isoformat()`. -/
def isoformat (t : Nat) : String := toString t

/-- Python `x.isoformat() if x else None`, as the serializers guard timestamps. -/
def optTimeValue (t : Option Nat) : PyValue :=
  match t with
  | some v => .str (isoformat v)
  | none => .null

/-- Method `Operator.to_dict` (operator.py, lines 74-87): eight public fields,
plus `password_hash` only when `include_sensitive` is set. -/
def Operator.to_dict (op : Operator) (include_sensitive : Bool := false) :
    List (String × PyValue) :=
  [("id", .int op.id),
   ("username", .str op.username),
   ("email", .str op.email),
   ("full_name", .str op.full_name),
   ("role", .str op.role),
   ("status", .str op.status),
   ("created_at", optTimeValue op.created_at),
   ("last_login", optTimeValue op.last_login)]
  ++ (if include_sensitive then [("password_hash", .str op.password_hash)] else [])

/-- C8: constructing an operator with a plaintext password stores only
the hash (which differs from the plaintext), reading the `password`
attribute raises `AttributeError`, the serialized form without the
sensitive flag has no `password_hash` key and does not depend on the
password at all, `verify_password` accepts the original plaintext and
rejects any other string. -/
theorem operator_password_protection (op : Operator) (p q : String)
    (hq : q ≠ p) :
    (op.setPassword p).passwordAttr
      = .error "password is not a readable attribute" ∧
    (op.setPassword p).password_hash = generate_password_hash p ∧
    (op.setPassword p).password_hash ≠ p ∧
    ((op.setPassword p).to_dict false).all
      (fun kv => kv.1 != "password_hash") = true ∧
    (op.setPassword p).to_dict false = (op.setPassword q).to_dict false ∧
    (op.setPassword p).verify_password p = true ∧
    (op.setPassword p).verify_password q = false := by
  refine ⟨rfl, rfl, ?_, rfl, rfl, ?_, ?_⟩
  · intro h
    have h' : ("scrypt$" ++ p : String) = p := h
    have hlen := congrArg String.length h'
    rw [String.length_append] at hlen
    have h7 : ("scrypt$" : String).length = 7 := rfl
    omega
  · show (generate_password_hash p == generate_password_hash p) = true
    simp
  · show (generate_password_hash p == generate_password_hash q) = false
    refine beq_eq_false_iff_ne.mpr ?_
    intro h
    have hd := congrArg String.data h
    simp only [generate_password_hash, String.data_append] at hd
    exact hq (String.ext (List.append_cancel_left hd)).symm

end TcGen

namespace TcGen

/-- Witness for C8: operator with password "secret123", wrong guess
"wrong" (as in `test_password_hashing_logic`). -/
theorem operator_password_protection_witness :
    (opAdmin.setPassword "secret123").passwordAttr
      = .error "password is not a readable attribute" ∧
    (opAdmin.setPassword "secret123").password_hash
      = generate_password_hash "secret123" ∧
    (opAdmin.setPassword "secret123").password_hash ≠ "secret123" ∧
    ((opAdmin.setPassword "secret123").to_dict false).all
      (fun kv => kv.1 != "password_hash") = true ∧
    (opAdmin.setPassword "secret123").to_dict false
      = (opAdmin.setPassword "wrong").to_dict false ∧
    (opAdmin.setPassword "secret123").verify_password "secret123" = true ∧
    (opAdmin.setPassword "secret123").verify_password "wrong" = false :=
  operator_password_protection opAdmin "secret123" "wrong" (by decide)

end TcGen
